import Mathlib

set_option maxRecDepth 8000

/-!
Verification of the deploy-request resolver and tool handlers of the
tarxan-mcp adapter.  Two variants of the server exist in the repository:

* the NATS variant (src/index.ts): tool calls `deploy`, `delete` and
  `list_templates` against a hardcoded template catalog, publishing to a
  message queue on success;
* the REST variant: the same three tools backed by an HTTP API.

Untyped JavaScript values that flow through the handlers are modelled by
`JsVal`; zod schema validation is modelled field by field, including the
fact that a `z.any()` field accepts an absent key; JS truthiness is the
`JsVal.truthy` predicate.  Each tool handler is a pure function returning
the list of messages it published downstream together with either the
text result or the error it raised.
-/

/-- A JavaScript runtime value, as far as the handlers inspect one. -/
inductive JsVal where
  | str (s : String)
  | num (n : Int)
  | bool (b : Bool)
  | null
  | obj (fields : List (String × JsVal))
deriving Repr

/-- JS truthiness: empty string, 0, false and null are falsy; objects are
always truthy. -/
def JsVal.truthy : JsVal → Bool
  | .str s => s != ""
  | .num n => n != 0
  | .bool b => b
  | .null => false
  | .obj _ => true

/-- How a value renders inside a JS template literal. -/
def JsVal.display : JsVal → String
  | .str s => s
  | .num n => toString n
  | .bool b => if b then "true" else "false"
  | .null => "null"
  | .obj _ => "[object Object]"

/-- The zod type name used in invalid-type messages. -/
def JsVal.zodTypeName : JsVal → String
  | .str _ => "string"
  | .num _ => "number"
  | .bool _ => "boolean"
  | .null => "null"
  | .obj _ => "object"

/-- One zod validation issue, already flattened to the shape the handler
renders: `e.path.join(".")` and `e.message`. -/
structure ZodIssue where
  path : String
  message : String
deriving Repr, DecidableEq

/-- Validation of a single `z.string()` field of a `z.object`: an absent
key yields a `Required` issue, a present non-string an invalid-type
issue. -/
def checkString (field : String) (v : Option JsVal) : List ZodIssue :=
  match v with
  | none => [⟨field, "Required"⟩]
  | some (.str _) => []
  | some w => [⟨field, "Expected string, received " ++ w.zodTypeName⟩]

/-- Array.prototype.join with a separator. -/
def joinSep (sep : String) : List String → String
  | [] => ""
  | [a] => a
  | a :: b :: rest => a ++ sep ++ joinSep sep (b :: rest)

/-- The rendering `e.path.join(".") ++ ": " ++ e.message` joined by ", ". -/
def renderIssues (issues : List ZodIssue) : String :=
  joinSep ", " (issues.map fun i => i.path ++ ": " ++ i.message)

/-- A catalog template of the NATS variant (`templates` entries). -/
structure Template where
  id : String
  name : String
  description : Option String
deriving Repr, DecidableEq

/-- The hardcoded example catalog of the NATS variant. -/
def templates : List Template :=
  [ ⟨"tpl-mongo", "MongoDB Server", some "Basic MongoDB stack"⟩,
    ⟨"tpl-gpt", "Basic GPT Server", some "A basic inference stack"⟩,
    ⟨"tpl-scraper", "Scraper + Storage", some "Web scraper with data sink"⟩ ]

/-- Does `needle` occur at the very start of `hay`? -/
def charsLead (needle hay : List Char) : Bool :=
  match needle, hay with
  | [], _ => true
  | _ :: _, [] => false
  | a :: as, b :: bs => a == b && charsLead as bs

/-- Does `needle` occur contiguously anywhere inside `hay`? -/
def charsContain (needle : List Char) : List Char → Bool
  | [] => charsLead needle []
  | b :: rest => charsLead needle (b :: rest) || charsContain needle rest

/-- String.prototype.includes, on the character lists. -/
def jsIncludes (hay needle : String) : Bool :=
  charsContain needle.data hay.data

/-- String.prototype.toLowerCase, character by character. -/
def jsToLowerCase (s : String) : String :=
  String.mk (s.data.map Char.toLower)

/-- The find predicate of the fallback path:
`t.name.toLowerCase().includes(name.toLowerCase())`. -/
def nameMatches (query : String) (t : Template) : Bool :=
  jsIncludes (jsToLowerCase t.name) (jsToLowerCase query)

/-- The deploy argument bag as the handler reads it: four keys, each
possibly absent. -/
structure DeployData where
  user_id : Option JsVal
  template_id : Option JsVal
  name : Option JsVal
  creds : Option JsVal
deriving Repr

/-- The resolved deploy command published to the queue. -/
structure DeployPayload where
  user_id : JsVal
  template_id : String
  creds : Option JsVal
deriving Repr

/-- Errors a deploy call can raise before publishing. -/
inductive DeployError where
  | missingInput
  | invalidArgs (issues : List ZodIssue)
  | templateNotFound (searched : String)
  | nameNotString
deriving Repr, DecidableEq

/-- The message attached to each deploy error by the handler. -/
def DeployError.message : DeployError → String
  | .missingInput => "Missing deployment input (arguments or resource)"
  | .invalidArgs issues => "Invalid arguments: " ++ renderIssues issues
  | .templateNotFound searched => "No template found matching name: " ++ searched
  | .nameNotString => "name.toLowerCase is not a function"

/-- `DeploySchema.safeParse`: `user_id` and `template_id` are `z.string()`;
`creds` is `z.any()`, which zod treats as acceptable even when the key is
absent.  On failure all issues of the object are collected. -/
def deploySafeParse (d : DeployData) : Except (List ZodIssue) DeployPayload :=
  match d.user_id, d.template_id with
  | some (.str u), some (.str t) => .ok ⟨.str u, t, d.creds⟩
  | _, _ =>
      .error (checkString "user_id" d.user_id ++ checkString "template_id" d.template_id)

/-- The guard of the fallback path: `!name || !user_id || !creds` fails,
i.e. all three destructured values are present and truthy. -/
def fallbackReady (d : DeployData) : Bool :=
  (d.name.map JsVal.truthy).getD false &&
  (d.user_id.map JsVal.truthy).getD false &&
  (d.creds.map JsVal.truthy).getD false

/-- The fallback branch once the guard has passed: match the name against
the catalog, case-insensitively by substring.  A truthy non-string name
makes `name.toLowerCase()` throw inside the find callback, which only
runs when the catalog is non-empty. -/
def resolveFallback (catalog : List Template) (nameVal userVal credsVal : JsVal) :
    Except DeployError DeployPayload :=
  match nameVal with
  | .str n =>
      match catalog.find? (nameMatches n) with
      | some t => .ok ⟨userVal, t.id, some credsVal⟩
      | none => .error (.templateNotFound n)
  | v =>
      if catalog.isEmpty then .error (.templateNotFound v.display)
      else .error .nameNotString

/-- The deploy resolution logic: try the strict schema, then the
name-based fallback, else re-raise the aggregated strict-path issues. -/
def resolveDeploy (catalog : List Template) (d : DeployData) :
    Except DeployError DeployPayload :=
  match deploySafeParse d with
  | .ok p => .ok p
  | .error issues =>
      match d.name, d.user_id, d.creds with
      | some nv, some uv, some cv =>
          if nv.truthy && uv.truthy && cv.truthy then
            resolveFallback catalog nv uv cv
          else .error (.invalidArgs issues)
      | _, _, _ => .error (.invalidArgs issues)

/-- The optional `resource` member of the request params; only its
`attributes` member is read. -/
structure CallResource (α : Type) where
  attributes : Option α
deriving Repr

/-- `args ?? resource?.attributes`. -/
def chooseData {α : Type} (args : Option α) (resource : Option (CallResource α)) :
    Option α :=
  match args with
  | some a => some a
  | none =>
      match resource with
      | some r => r.attributes
      | none => none

/-- The deploy tool handler of the NATS variant.  The first component is
the list of payloads published to the `deploy` subject; the second the
text result or the raised error. -/
def deployTool (catalog : List Template) (args : Option DeployData)
    (resource : Option (CallResource DeployData)) :
    List DeployPayload × Except DeployError String :=
  match chooseData args resource with
  | none => ([], .error .missingInput)
  | some d =>
      match resolveDeploy catalog d with
      | .error e => ([], .error e)
      | .ok p =>
          ([p], .ok ("Deploy event published for user " ++ p.user_id.display ++
            " using template " ++ p.template_id))

/-- The delete argument bag. -/
structure DeleteData where
  server_id : Option JsVal
deriving Repr

/-- Errors a delete call can raise. -/
inductive DeleteError where
  | missingInput
  | invalidArgs (issues : List ZodIssue)
deriving Repr, DecidableEq

/-- The message attached to each delete error by the handler. -/
def DeleteError.message : DeleteError → String
  | .missingInput => "Missing deletion input (arguments or resource)"
  | .invalidArgs issues => "Invalid arguments: " ++ renderIssues issues

/-- `DeleteSchema.parse`: `server_id` must be a string; the thrown
ZodError is converted to a message by the surrounding catch. -/
def deleteParse (d : DeleteData) : Except (List ZodIssue) String :=
  match d.server_id with
  | some (.str s) => .ok s
  | v => .error (checkString "server_id" v)

/-- The delete tool handler of the NATS variant, with its publish log. -/
def deleteTool (args : Option DeleteData)
    (resource : Option (CallResource DeleteData)) :
    List String × Except DeleteError String :=
  match chooseData args resource with
  | none => ([], .error .missingInput)
  | some d =>
      match deleteParse d with
      | .error issues => ([], .error (.invalidArgs issues))
      | .ok s => ([s], .ok ("Delete event published for server " ++ s))

/-- One catalog line of the NATS list_templates tool:
`• name (id)` plus ` – description` when the description is truthy. -/
def formatNatsTemplate (t : Template) : String :=
  "• " ++ (t.name ++ " (" ++ t.id ++ ")" ++
    (match t.description with
     | some dsc => if dsc = "" then "" else " – " ++ dsc
     | none => ""))

/-- The text returned by the NATS list_templates tool on its hardcoded
catalog: lines joined by a single newline, with no empty-catalog
special case. -/
def natsListTemplatesText : String :=
  joinSep "\n" (templates.map formatNatsTemplate)

/-- A template as the REST variant receives it from `/api/templates`. -/
structure RestTemplate where
  _id : String
  name : String
  type : String
  sub_type : Option String
  fields : List String
deriving Repr

/-- One catalog entry of the REST list_templates tool:
`• name (id)` then an indented Type line (with optional sub_type) and an
indented Fields line; falsy name and type strings are replaced by
placeholders. -/
def formatRestTemplate (t : RestTemplate) : String :=
  "• " ++ ((if t.name = "" then "(unnamed)" else t.name) ++ " (" ++ t._id ++ ")" ++
    "\n  Type: " ++ (if t.type = "" then "(no type)" else t.type) ++
    (match t.sub_type with
     | some s => if s = "" then "" else " / " ++ s
     | none => "") ++
    "\n  Fields: " ++ joinSep ", " t.fields)

/-- The text returned by the REST list_templates tool: entries joined by
blank lines, or the fallback text when the joined string is falsy. -/
def restListTemplatesText (items : List RestTemplate) : String :=
  let s := joinSep "\n\n" (items.map formatRestTemplate)
  if s = "" then "No templates found." else s

/-- The deploy argument bag of the REST variant (its DeploySchema has no
user_id field). -/
structure RestDeployData where
  template_id : Option JsVal
  creds : Option JsVal
deriving Repr

/-- `DeploySchema.parse(args)` of the REST variant: absent args fail at
the root, otherwise `template_id` must be a string and `creds` is
`z.any()`. -/
def restDeployParse (args : Option RestDeployData) :
    Except (List ZodIssue) (String × Option JsVal) :=
  match args with
  | none => .error [⟨"", "Required"⟩]
  | some d =>
      match d.template_id with
      | some (.str t) => .ok (t, d.creds)
      | v => .error (checkString "template_id" v)

/-- The deploy tool handler of the REST variant: the first component is
the list of bodies POSTed to `/api/servers`. -/
def restDeployTool (args : Option RestDeployData) :
    List (String × Option JsVal) × Except (List ZodIssue) String :=
  match restDeployParse args with
  | .error e => ([], .error e)
  | .ok body => ([body], .ok ("✅ Deployment triggered for template ID: " ++ body.1))

/-- C1: an input that already has a string user id, a string template id
and credentials is accepted unchanged by the strict path — the resolved
template id is the supplied one — and the result does not depend on the
catalog, so the catalog is never queried. -/
theorem C1_strict_path_accepts_unchanged (catalog catalog2 : List Template)
    (u t : String) (nm : Option JsVal) (c : JsVal) :
    resolveDeploy catalog ⟨some (.str u), some (.str t), nm, some c⟩ =
      .ok ⟨.str u, t, some c⟩ ∧
    resolveDeploy catalog ⟨some (.str u), some (.str t), nm, some c⟩ =
      resolveDeploy catalog2 ⟨some (.str u), some (.str t), nm, some c⟩ := by
  constructor <;> simp [resolveDeploy, deploySafeParse]

/-- C6: an input with a string template id and credentials but no user id
fails strict validation, cannot take the fallback (no name), and raises
the aggregated issue list, which cites exactly the missing user_id
field. -/
theorem C6_missing_user_id_cited (catalog : List Template) (t : String) (c : JsVal) :
    resolveDeploy catalog ⟨none, some (.str t), none, some c⟩ =
      .error (.invalidArgs [⟨"user_id", "Required"⟩]) ∧
    DeployError.message (.invalidArgs [⟨"user_id", "Required"⟩]) =
      "Invalid arguments: user_id: Required" := by
  constructor
  · simp [resolveDeploy, deploySafeParse, checkString]
  · rfl

/-- C7: the code evaluated at the claimed failing input: with user id and
template id present but the creds key absent entirely, `z.any()` accepts
the absent key, so the strict path accepts the input and the handler
publishes a payload without creds instead of raising an invalid-type
error. -/
theorem C7_creds_absent_accepted_on_strict_path :
    resolveDeploy templates ⟨some (.str "u1"), some (.str "tpl-x"), none, none⟩ =
      .ok ⟨.str "u1", "tpl-x", none⟩ ∧
    (deployTool templates
        (some ⟨some (.str "u1"), some (.str "tpl-x"), none, none⟩) none).1 =
      [⟨.str "u1", "tpl-x", none⟩] := by
  constructor <;> rfl

/-- With no template_id key the strict parse always fails, collecting the
user_id issue (if any) and the Required issue for template_id. -/
theorem deploySafeParse_noTid (uo nm co : Option JsVal) :
    deploySafeParse ⟨uo, none, nm, co⟩ =
      .error (checkString "user_id" uo ++ [⟨"template_id", "Required"⟩]) := by
  cases uo with
  | none => rfl
  | some u => cases u <;> rfl

/-- With no template_id and a truthy user id, credentials and non-empty
string name, the handler takes the fallback path. -/
theorem resolveDeploy_fallback (catalog : List Template) (u c : JsVal) (n : String)
    (hu : u.truthy = true) (hc : c.truthy = true) (hn : n ≠ "") :
    resolveDeploy catalog ⟨some u, none, some (.str n), some c⟩ =
      resolveFallback catalog (.str n) u c := by
  have hnb : (JsVal.str n).truthy = true := by
    simpa [JsVal.truthy] using hn
  simp [resolveDeploy, deploySafeParse_noTid, hnb, hu, hc]

/-- find? returns the head of the filtered list. -/
theorem find_eq_filterHead {α : Type} (p : α → Bool) (l : List α) :
    l.find? p = (l.filter p).head? := by
  induction l with
  | nil => rfl
  | cons a t ih =>
    cases h : p a with
    | true =>
        rw [List.find?_cons_of_pos _ h, List.filter_cons_of_pos h, List.head?_cons]
    | false =>
        rw [List.find?_cons_of_neg _ (by simp [h]),
          List.filter_cons_of_neg (by simp [h]), ih]

/-- find? locates the unique element satisfying the predicate. -/
theorem find_of_unique {α : Type} (p : α → Bool) (l : List α) (t : α)
    (ht : t ∈ l) (hp : p t = true)
    (huniq : ∀ s ∈ l, p s = true → s = t) :
    l.find? p = some t := by
  induction l with
  | nil => cases ht
  | cons a r ih =>
    by_cases h : p a
    · have ha : a = t := huniq a (List.mem_cons_self a r) h
      subst ha
      simp [List.find?_cons, h]
    · have htr : t ∈ r := by
        rcases List.mem_cons.mp ht with h1 | h1
        · exact absurd (h1 ▸ hp) (by simpa [h1] using h)
        · exact h1
      simpa [List.find?_cons, h] using
        ih htr (fun s hs hps => huniq s (List.mem_cons_of_mem _ hs) hps)

/-- C2: a fallback input whose name matches exactly one catalog entry,
case-insensitively by substring, resolves to that entry and the resolved
command keeps the supplied user id and credentials. -/
theorem C2_unique_name_resolves (catalog : List Template) (u c : JsVal) (n : String)
    (t : Template) (hu : u.truthy = true) (hc : c.truthy = true) (hn : n ≠ "")
    (ht : t ∈ catalog) (hmt : nameMatches n t = true)
    (huniq : ∀ s ∈ catalog, nameMatches n s = true → s = t) :
    resolveDeploy catalog ⟨some u, none, some (.str n), some c⟩ =
      .ok ⟨u, t.id, some c⟩ := by
  rw [resolveDeploy_fallback catalog u c n hu hc hn]
  simp [resolveFallback, find_of_unique (nameMatches n) catalog t ht hmt huniq]

/-- C2 witness: the concrete scenario of the spec resolves name "gpt" to
template tpl-gpt on the two-entry catalog. -/
theorem C2_unique_name_resolves_witness :
    resolveDeploy
        [⟨"tpl-mongo", "MongoDB Server", none⟩, ⟨"tpl-gpt", "Basic GPT Server", none⟩]
        ⟨some (.str "u1"), none, some (.str "gpt"), some (.obj [])⟩ =
      .ok ⟨.str "u1", "tpl-gpt", some (.obj [])⟩ :=
  C2_unique_name_resolves _ _ _ _ ⟨"tpl-gpt", "Basic GPT Server", none⟩
    (by decide) (by decide) (by decide) (by decide) (by decide) (by decide)

/-- C3: a fallback input whose name matches no catalog entry fails with
the template-not-found error, whose message names the searched string. -/
theorem C3_no_match_error (catalog : List Template) (u c : JsVal) (n : String)
    (hu : u.truthy = true) (hc : c.truthy = true) (hn : n ≠ "")
    (hnone : ∀ s ∈ catalog, nameMatches n s = false) :
    resolveDeploy catalog ⟨some u, none, some (.str n), some c⟩ =
      .error (.templateNotFound n) ∧
    DeployError.message (.templateNotFound n) =
      "No template found matching name: " ++ n := by
  refine ⟨?_, rfl⟩
  rw [resolveDeploy_fallback catalog u c n hu hc hn]
  have hfind : catalog.find? (nameMatches n) = none :=
    List.find?_eq_none.mpr (fun x hx => by simp [hnone x hx])
  simp [resolveFallback, hfind]

/-- C3 witness: the concrete scenario of the spec, name "nonexistent" on
the two-entry catalog. -/
theorem C3_no_match_error_witness :
    resolveDeploy
        [⟨"tpl-mongo", "MongoDB Server", none⟩, ⟨"tpl-gpt", "Basic GPT Server", none⟩]
        ⟨some (.str "u1"), none, some (.str "nonexistent"), some (.obj [])⟩ =
      .error (.templateNotFound "nonexistent") ∧
    DeployError.message (.templateNotFound "nonexistent") =
      "No template found matching name: nonexistent" :=
  C3_no_match_error _ _ _ _ (by decide) (by decide) (by decide) (by decide)

/-- C8: when at least one catalog entry matches the fallback name, the
resolver selects the first match in catalog iteration order (the head of
the filtered catalog); being a pure function of the catalog and the
input, two runs on the same catalog return this same single match. -/
theorem C8_first_match_selected (catalog : List Template) (u c : JsVal) (n : String)
    (hu : u.truthy = true) (hc : c.truthy = true) (hn : n ≠ "")
    (hm : catalog.filter (nameMatches n) ≠ []) :
    resolveDeploy catalog ⟨some u, none, some (.str n), some c⟩ =
      .ok ⟨u, ((catalog.filter (nameMatches n)).head hm).id, some c⟩ := by
  rw [resolveDeploy_fallback catalog u c n hu hc hn]
  have hfind : catalog.find? (nameMatches n) =
      some ((catalog.filter (nameMatches n)).head hm) := by
    rw [find_eq_filterHead, List.head?_eq_head]
  have hred : resolveFallback catalog (.str n) u c =
      match catalog.find? (nameMatches n) with
      | some t => .ok ⟨u, t.id, some c⟩
      | none => .error (.templateNotFound n) := rfl
  rw [hred, hfind]

/-- C8 witness: "server" matches both MongoDB Server and Basic GPT Server
in the hardcoded catalog; the first one in iteration order wins. -/
theorem C8_first_match_selected_witness :
    resolveDeploy templates
        ⟨some (.str "u1"), none, some (.str "server"), some (.obj [])⟩ =
      .ok ⟨.str "u1", "tpl-mongo", some (.obj [])⟩ :=
  C8_first_match_selected templates (.str "u1") (.obj []) "server"
    (by decide) (by decide) (by decide) (by decide)

/-- A failed strict parse reports exactly the aggregated issues of both
string fields, in schema order. -/
theorem deploySafeParse_error_issues (d : DeployData) (issues : List ZodIssue)
    (hp : deploySafeParse d = .error issues) :
    issues = checkString "user_id" d.user_id ++ checkString "template_id" d.template_id := by
  unfold deploySafeParse at hp
  split at hp
  · cases hp
  · exact (Except.error.inj hp).symm

/-- C4: when the strict parse fails and the fallback guard fails too, the
resolver raises a validation error carrying every issue of the attempted
strict-path validation — one per missing or mistyped field, field path
plus reason — not only the first, and renders them all in its message. -/
theorem C4_aggregated_validation (catalog : List Template) (d : DeployData)
    (issues : List ZodIssue)
    (hp : deploySafeParse d = .error issues)
    (hf : fallbackReady d = false) :
    resolveDeploy catalog d = .error (.invalidArgs issues) ∧
    issues = checkString "user_id" d.user_id ++ checkString "template_id" d.template_id ∧
    DeployError.message (.invalidArgs issues) =
      "Invalid arguments: " ++ renderIssues issues := by
  refine ⟨?_, deploySafeParse_error_issues d issues hp, rfl⟩
  unfold resolveDeploy
  rw [hp]
  obtain ⟨uo, tid, nm, cr⟩ := d
  cases nm with
  | none => rfl
  | some nv =>
      cases uo with
      | none => rfl
      | some uv =>
          cases cr with
          | none => rfl
          | some cv =>
              have hb : (nv.truthy && uv.truthy && cv.truthy) = false := by
                simpa [fallbackReady] using hf
              simp [hb]

/-- C4 witness: the empty argument bag yields both Required issues in one
message. -/
theorem C4_aggregated_validation_witness :
    resolveDeploy templates ⟨none, none, none, none⟩ =
      .error (.invalidArgs [⟨"user_id", "Required"⟩, ⟨"template_id", "Required"⟩]) ∧
    DeployError.message
        (.invalidArgs [⟨"user_id", "Required"⟩, ⟨"template_id", "Required"⟩]) =
      "Invalid arguments: user_id: Required, template_id: Required" :=
  ⟨(C4_aggregated_validation templates ⟨none, none, none, none⟩
      [⟨"user_id", "Required"⟩, ⟨"template_id", "Required"⟩] rfl rfl).1, rfl⟩

/-- C5: in both variants, whenever the deploy call ends in an error the
publish log is empty — nothing is dispatched downstream unless
resolution fully succeeded — and the error is the result of the call. -/
theorem C5_no_dispatch_on_failure :
    (∀ (catalog : List Template) (args : Option DeployData)
        (resource : Option (CallResource DeployData)) (e : DeployError),
        (deployTool catalog args resource).2 = .error e →
        (deployTool catalog args resource).1 = []) ∧
    (∀ (args : Option RestDeployData) (e : List ZodIssue),
        (restDeployTool args).2 = .error e →
        (restDeployTool args).1 = []) := by
  constructor
  · intro catalog args resource e h
    unfold deployTool at h ⊢
    cases hd : chooseData args resource with
    | none => simp [hd]
    | some d =>
        cases hr : resolveDeploy catalog d with
        | error e2 => simp [hd, hr]
        | ok p => simp [hd, hr] at h
  · intro args e h
    unfold restDeployTool at h ⊢
    cases hq : restDeployParse args with
    | error e2 => simp [hq]
    | ok body => simp [hq] at h

/-- C5 witness: a deploy call with neither arguments nor resource errors
out and publishes nothing, in both variants. -/
theorem C5_no_dispatch_on_failure_witness :
    (deployTool templates none none).2 = .error .missingInput ∧
    (deployTool templates none none).1 = [] ∧
    (restDeployTool none).2 = .error [⟨"", "Required"⟩] ∧
    (restDeployTool none).1 = [] :=
  ⟨rfl, C5_no_dispatch_on_failure.1 templates none none .missingInput rfl,
    rfl, C5_no_dispatch_on_failure.2 none [⟨"", "Required"⟩] rfl⟩

/-- C10: both NATS tools read their payload from the arguments field
(ignoring the resource when arguments are present), fall back to the
attributes of the resource when the arguments are absent, and when both
are absent fail with the missing-input message without publishing
anything. -/
theorem C10_input_selection :
    (∀ (catalog : List Template) (d : DeployData)
        (r : Option (CallResource DeployData)),
        deployTool catalog (some d) r = deployTool catalog (some d) none) ∧
    (∀ (catalog : List Template) (d : DeployData),
        deployTool catalog none (some ⟨some d⟩) = deployTool catalog (some d) none) ∧
    (∀ catalog : List Template,
        deployTool catalog none none = ([], .error .missingInput)) ∧
    (∀ catalog : List Template,
        deployTool catalog none (some ⟨none⟩) = ([], .error .missingInput)) ∧
    (∀ (d : DeleteData) (r : Option (CallResource DeleteData)),
        deleteTool (some d) r = deleteTool (some d) none) ∧
    (∀ d : DeleteData,
        deleteTool none (some ⟨some d⟩) = deleteTool (some d) none) ∧
    deleteTool none none = ([], .error .missingInput) ∧
    deleteTool none (some ⟨none⟩) = ([], .error .missingInput) ∧
    DeployError.message .missingInput =
      "Missing deployment input (arguments or resource)" ∧
    DeleteError.message .missingInput =
      "Missing deletion input (arguments or resource)" :=
  ⟨fun _ _ _ => rfl, fun _ _ => rfl, fun _ => rfl, fun _ => rfl,
    fun _ _ => rfl, fun _ => rfl, rfl, rfl, rfl, rfl⟩

/-- C9 counterexample: the NATS list_templates output on its (non-empty)
hardcoded catalog carries no Type or Fields line at all — each entry is
rendered as a single bullet line with a dash and the description — so
the claimed per-entry format does not hold for this variant. -/
theorem C9_counterexample :
    natsListTemplatesText =
      "• MongoDB Server (tpl-mongo) – Basic MongoDB stack\n• Basic GPT Server (tpl-gpt) – A basic inference stack\n• Scraper + Storage (tpl-scraper) – Web scraper with data sink" ∧
    charsContain "Type:".data natsListTemplatesText.data = false ∧
    charsContain "Fields:".data natsListTemplatesText.data = false ∧
    templates ≠ [] :=
  ⟨rfl, by decide, by decide, by decide⟩

/-- The per-entry REST format always starts with the bullet, so it is at
least two characters long. -/
theorem formatRestTemplate_len (t : RestTemplate) :
    2 ≤ (formatRestTemplate t).length := by
  unfold formatRestTemplate
  rw [String.length_append]
  have hb : ("• " : String).length = 2 := rfl
  omega

/-- Joining a non-empty list is at least as long as its head. -/
theorem joinSep_head_len (sep a : String) (l : List String) :
    a.length ≤ (joinSep sep (a :: l)).length := by
  cases l with
  | nil => simp [joinSep]
  | cons b r =>
      have h : joinSep sep (a :: b :: r) = a ++ sep ++ joinSep sep (b :: r) := rfl
      rw [h, String.length_append, String.length_append]
      omega

/-- The joined REST listing of a non-empty catalog is never the empty
string, so the fallback text is not produced. -/
theorem restJoin_ne_empty (t : RestTemplate) (rest : List RestTemplate) :
    joinSep "\n\n" ((t :: rest).map formatRestTemplate) ≠ "" := by
  intro h
  have h1 : 2 ≤ (joinSep "\n\n" ((t :: rest).map formatRestTemplate)).length := by
    have h2 := joinSep_head_len "\n\n" (formatRestTemplate t) (rest.map formatRestTemplate)
    exact le_trans (formatRestTemplate_len t) h2
  rw [h] at h1
  simp at h1

/-- C9 amended: it is the REST variant whose list_templates output has
the `name (id)` / indented Type / indented Fields shape, joined by blank
lines, and which returns exactly "No templates found." on an empty
catalog; the NATS variant renders single bullet-dash lines with no
Type or Fields and no empty-catalog message. -/
theorem C9_amended_list_formats :
    restListTemplatesText [] = "No templates found." ∧
    (∀ (t : RestTemplate) (rest : List RestTemplate),
        restListTemplatesText (t :: rest) =
          joinSep "\n\n" ((t :: rest).map formatRestTemplate)) ∧
    restListTemplatesText [⟨"tpl-a", "Alpha", "db", none, ["user", "pass"]⟩] =
      "• Alpha (tpl-a)\n  Type: db\n  Fields: user, pass" ∧
    natsListTemplatesText =
      "• MongoDB Server (tpl-mongo) – Basic MongoDB stack\n• Basic GPT Server (tpl-gpt) – A basic inference stack\n• Scraper + Storage (tpl-scraper) – Web scraper with data sink" := by
  refine ⟨rfl, ?_, rfl, rfl⟩
  intro t rest
  simp only [restListTemplatesText]
  rw [if_neg (restJoin_ne_empty t rest)]
